import Mathlib

/-!
Shallow embedding of the Fornjot model-processing pipeline, from
`crates/fj/src/instance.rs` and `crates/fj/src/args.rs`.

External collaborators (crates fj_math, fj_interop, fj_core, the numeric
parser of Rust's std, tracing_subscriber, the exporter and the viewer) are
not part of the embedded sources; where their behaviour matters they are
modelled from the specification, as marked on each definition.
-/

/-- Modelled from the spec: `Scalar` (crate fj_math, not under the embedded
sources) wraps a real number; we use ℚ for exact executable arithmetic. -/
abbrev Scalar := ℚ

/-- Modelled from the spec: `Scalar::from_f64` injects a numeric literal into
`Scalar`; under exact arithmetic it is the identity on the numeric value. -/
def Scalar.from_f64 (v : ℚ) : Scalar := v

/-- Modelled from the spec: a 3-dimensional point (`Point<3>` of fj_math). -/
structure Point3 where
  x : Scalar
  y : Scalar
  z : Scalar
deriving DecidableEq

/-- Modelled from the spec: `Point::origin`, the all-zero point. -/
def Point3.origin : Point3 := ⟨0, 0, 0⟩

/-- Modelled from the spec: the three components of a point, in axis order,
as iterated by `for extent in aabb.size().components`. -/
def Point3.components (p : Point3) : List Scalar := [p.x, p.y, p.z]

/-- Modelled from the spec: an axis-aligned bounding box (`Aabb<3>` of
fj_math), a pair of corner points. -/
structure Aabb where
  min : Point3
  max : Point3
deriving DecidableEq

/-- Modelled from the spec: `Aabb::size` is `max - min`, component-wise. -/
def Aabb.size (a : Aabb) : Point3 :=
  ⟨a.max.x - a.min.x, a.max.y - a.min.y, a.max.z - a.min.z⟩

/-- Modelled from the spec: `InvalidTolerance` (crate fj_interop) reports a
rejected tolerance value, carrying the offending value; as an error value it
is a leaf of the cause chain. -/
structure InvalidTolerance where
  value : Scalar
deriving DecidableEq

/-- Modelled from the spec: `Tolerance` (crate fj_interop) wraps a real
number with the invariant `value > 0`, enforced at construction. -/
structure Tolerance where
  value : Scalar
  value_pos : 0 < value

/-- Modelled from the spec: `Tolerance::from_scalar`, the fallible
constructor; it fails exactly when the value is not strictly positive. -/
def Tolerance.from_scalar (v : Scalar) : Except InvalidTolerance Tolerance :=
  if h : 0 < v then Except.ok ⟨v, h⟩ else Except.error ⟨v⟩

/-- Modelled from the spec: an external error value together with its chain
of underlying causes (the cause-of-cause relation walked by the reporter). -/
inductive DynError where
  | leaf (message : String)
  | node (message : String) (cause : DynError)
deriving DecidableEq

/-- The displayed message of an external error. -/
def DynError.message : DynError → String
  | .leaf m => m
  | .node m _ => m

/-- The next link of the cause chain, or none at a leaf. -/
def DynError.source : DynError → Option DynError
  | .leaf _ => none
  | .node _ c => some c

/-- Spec side (section 4.5): the messages along an error's cause chain, in
cause-of-cause order, starting with the error's own message. -/
def DynError.messages : DynError → List String
  | .leaf m => [m]
  | .node m c => m :: c.messages

/-- Modelled from the spec: `tracing::subscriber::SetGlobalDefaultError`, the
error type named by `init_logger`'s signature. -/
abbrev SetGlobalDefaultError := DynError

/-- Modelled from the spec: `viewer::Error`, a failure of the external
interactive viewer, with its cause chain. -/
abbrev ViewerError := DynError

/-- Modelled from the spec: `export::Error`, a failure of the external
exporter, with its cause chain. -/
abbrev ExportError := DynError

/-- Modelled from the spec: a single validation error accumulated by the
geometry kernel (crate fj_core). -/
structure ValidationError where
  message : String
deriving DecidableEq

/-- Modelled from the spec: `ValidationErrors` (crate fj_core) carries the
full set of accumulated validation errors. -/
structure ValidationErrors where
  errors : List ValidationError
deriving DecidableEq

/-- Modelled from the spec: the displayed message of `ValidationErrors`. -/
def ValidationErrors.message (v : ValidationErrors) : String :=
  toString v.errors.length ++ " validation errors"

/-- Modelled from the spec: `ValidationErrors` has no further cause of its
own; the individual errors are carried as data. -/
def ValidationErrors.source (_ : ValidationErrors) : Option DynError := none

/-- Modelled from the spec: the displayed message of `InvalidTolerance`. -/
def InvalidTolerance.message (_ : InvalidTolerance) : String :=
  "invalid tolerance"

/-- Modelled from the spec: `InvalidTolerance` has no further cause. -/
def InvalidTolerance.source (_ : InvalidTolerance) : Option DynError := none

/-- Modelled from the spec: the outcome of the global `try_init` call of
tracing_subscriber; it fails either because a global subscriber is already
initialized, or for some other setup reason. -/
inductive TryInitError where
  | alreadyInitialized
  | other (message : String)
deriving DecidableEq

/-- The error enum returned by `Instance::process_model` (instance.rs). The
source constructor `export` is a reserved word in Lean and is embedded as
`exportError`. -/
inductive Error where
  | tracing (e : SetGlobalDefaultError)
  | display (e : ViewerError)
  | exportError (e : ExportError)
  | tolerance (e : InvalidTolerance)
  | validation (e : ValidationErrors)
  | emptyModel
deriving DecidableEq

/-- The `Display` rendering of `Error`, as generated by thiserror from the
`#[error(...)]` attributes in instance.rs; the `transparent` variants
(`Tolerance`, `Validation`) forward to the inner error's display. -/
def Error.displayStr : Error → String
  | .tracing _ => "Failed to set up logger"
  | .display _ => "Error displaying model"
  | .exportError _ => "Error exporting model"
  | .tolerance e => e.message
  | .validation e => e.message
  | .emptyModel => "The model is empty or has zero size; cannot compute tolerance"

/-- The `source` accessor of `Error`, as generated by thiserror: `#[from]`
fields are the source; the `transparent` variants forward to the inner
error's own source. -/
def Error.source : Error → Option DynError
  | .tracing e => some e
  | .display e => some e
  | .exportError e => some e
  | .tolerance e => e.source
  | .validation e => e.source
  | .emptyModel => none

/-- The numbered cause-printing while-loop of `impl fmt::Debug for Error`
(instance.rs): each cause on its own line, indented, numbered from `i`. -/
def debugChain : DynError → Nat → String
  | .leaf m, i => "\n    " ++ toString i ++ ": " ++ m
  | .node m c, i => "\n    " ++ toString i ++ ": " ++ m ++ debugChain c (i + 1)

/-- The `Debug` rendering of `Error` (instance.rs): the error's own display,
then, when a source exists, a "Caused by:" header and the numbered chain. -/
def Error.debugFmt (e : Error) : String :=
  e.displayStr ++
    (match e.source with
     | none => ""
     | some s => "\n\nCaused by:" ++ debugChain s 0)

/-- Spec side (section 4.5): the cause messages of a pipeline error, in
cause-of-cause order. -/
def Error.causes (e : Error) : List String :=
  match e.source with
  | none => []
  | some s => s.messages

/-- Spec side (section 4.5): render a list of causes, one per line, numbered
consecutively from `i`. -/
def renderCauses : List String → Nat → String
  | [], _ => ""
  | m :: rest, i => "\n    " ++ toString i ++ ": " ++ m ++ renderCauses rest (i + 1)

/-- Modelled from the spec: `std::num::ParseFloatError`, the cause carried
when the tolerance text does not parse as a number. -/
structure ParseFloatError where
  message : String
deriving DecidableEq

/-- The `ArgsError` enum (args.rs). -/
inductive ArgsError where
  | ParseTolerance (e : ParseFloatError)
  | InvalidTolerance (e : InvalidTolerance)
deriving DecidableEq

/-- The function `parse_tolerance` (args.rs). The numeric parser
`f64::from_str` is external (Rust std) and is passed in as `from_str`;
`Scalar::from_f64` is the exact injection. -/
def parse_tolerance (from_str : String → Except ParseFloatError Scalar)
    (input : String) : Except ArgsError Tolerance :=
  match from_str input with
  | Except.error e => Except.error (ArgsError.ParseTolerance e)
  | Except.ok v =>
    match Tolerance.from_scalar (Scalar.from_f64 v) with
    | Except.ok t => Except.ok t
    | Except.error e => Except.error (ArgsError.InvalidTolerance e)

/-- The `Args` structure (args.rs). The source field `export` is a reserved
word in Lean and is embedded as `exportPath`; a path is a string. -/
structure Args where
  exportPath : Option String
  tolerance : Option Tolerance
  ignore_validation : Bool

/-- The method `Instance::init_logger` (instance.rs): the result of the
underlying global `try_init` call is discarded with `let _ = ...` and the
method returns `Ok(())`. The `try_init` outcome is external and passed in. -/
def init_logger (_tryInit : Except TryInitError Unit) :
    Except SetGlobalDefaultError Unit :=
  Except.ok ()

/-- The body of the extent-scanning loop in `Instance::compute_tolerance`.
The state is `(min_extent, found_nonzero)`. The initial value of
`min_extent` in the source is `Scalar::MAX` (crate fj_math, not under the
embedded sources), modelled from the spec as exceeding every scalar; since
`min_extent` still holds that initial value exactly when `found_nonzero` is
still `false`, the source's comparison `extent < min_extent` is embedded as
`st.2 = false ∨ extent < st.1`, and the numeric initial value below is
irrelevant (it is never compared). -/
def scanStep (st : Scalar × Bool) (extent : Scalar) : Scalar × Bool :=
  if 0 < extent ∧ (st.2 = false ∨ extent < st.1) then (extent, true) else st

/-- The method `Instance::compute_tolerance` (instance.rs). -/
def compute_tolerance (aabb : Aabb) (user_defined : Option Tolerance) :
    Except Error Tolerance :=
  match user_defined with
  | some tol => Except.ok tol
  | none =>
    let st := aabb.size.components.foldl scanStep (0, false)
    if st.2 = false then Except.error Error.emptyModel
    else
      let tolerance := st.1 / Scalar.from_f64 1000
      match Tolerance.from_scalar tolerance with
      | Except.ok t => Except.ok t
      | Except.error e => Except.error (Error.tolerance e)

/-- Spec side (section 4.3): the minimum strictly-positive entry of a list
of extents, or none when no entry is strictly positive; entries that are
zero (or negative) are skipped, never chosen as the minimum. -/
def minPositiveExtent (l : List Scalar) : Option Scalar :=
  match l.filter (fun e => decide (0 < e)) with
  | [] => none
  | p :: rest => some (rest.foldl min p)

/-- The externally observable calls of one pipeline run, in order. -/
inductive Event where
  | initLogger
  | takeValidationErrors
  | aabbQuery
  | triangulate
  | exportCall (path : String)
  | displayCall
deriving DecidableEq

/-- Modelled from the spec: the external collaborators of one pipeline run:
the global `try_init` outcome, the bounding-volume query, the triangulator,
the exporter and the viewer. -/
structure Collaborators (M TriMesh : Type) where
  tryInit : Except TryInitError Unit
  aabb : M → Option Aabb
  triangulate : M → Tolerance → TriMesh
  exportFn : TriMesh → String → Except ExportError Unit
  displayFn : TriMesh → Except ViewerError Unit

/-- Modelled from the spec: `take_errors` on the validation layer of the
geometry kernel (crate fj_core): drain the accumulated validation errors,
failing with `ValidationErrors` exactly when any exist. -/
def take_errors (errs : List ValidationError) : Except ValidationErrors Unit :=
  if errs.isEmpty then Except.ok () else Except.error ⟨errs⟩

/-- The method `Instance::process_model_with_args` (instance.rs),
instrumented with the trace of collaborator calls. `validationErrors` is
the validation state accumulated in `self.core.layers.validation`. -/
def process_model_with_args {M TriMesh : Type} (C : Collaborators M TriMesh)
    (validationErrors : List ValidationError) (model : M) (args : Args) :
    Except Error Unit × List Event :=
  match init_logger C.tryInit with
  | Except.error e => (Except.error (Error.tracing e), [Event.initLogger])
  | Except.ok _ =>
    let gate : Except ValidationErrors Unit × List Event :=
      if args.ignore_validation then (Except.ok (), [])
      else (take_errors validationErrors, [Event.takeValidationErrors])
    match gate.1 with
    | Except.error ve =>
      (Except.error (Error.validation ve), Event.initLogger :: gate.2)
    | Except.ok _ =>
      let aabb := (C.aabb model).getD ⟨Point3.origin, Point3.origin⟩
      let ev := Event.initLogger :: gate.2 ++ [Event.aabbQuery]
      match compute_tolerance aabb args.tolerance with
      | Except.error e => (Except.error e, ev)
      | Except.ok tolerance =>
        let tri_mesh := C.triangulate model tolerance
        let ev2 := ev ++ [Event.triangulate]
        match args.exportPath with
        | some path =>
          (match C.exportFn tri_mesh path with
           | Except.ok _ => Except.ok ()
           | Except.error e => Except.error (Error.exportError e),
           ev2 ++ [Event.exportCall path])
        | none =>
          (match C.displayFn tri_mesh with
           | Except.ok _ => Except.ok ()
           | Except.error e => Except.error (Error.display e),
           ev2 ++ [Event.displayCall])

/-- Concrete collaborators used to evaluate the pipeline at closed inputs:
an already-initialized logger, a model with no bounding volume, and an
exporter and viewer that succeed. -/
def collabW : Collaborators Unit Unit where
  tryInit := Except.error TryInitError.alreadyInitialized
  aabb := fun _ => none
  triangulate := fun _ _ => ()
  exportFn := fun _ _ => Except.ok ()
  displayFn := fun _ => Except.ok ()

/-- Concrete numeric parser used to evaluate `parse_tolerance` at closed
inputs. -/
def fsW : String → Except ParseFloatError Scalar := fun s =>
  if s = "abc" then Except.error ⟨"invalid float literal"⟩
  else if s = "-1" then Except.ok (-1)
  else Except.ok (1 / 100)

/-- A concrete tolerance value used to evaluate the pipeline at closed
inputs. -/
def tW : Tolerance := ⟨1, one_pos⟩

/-- Two tolerances with the same value are equal. -/
theorem Tolerance.eq_of_value {a b : Tolerance} (h : a.value = b.value) :
    a = b := by
  cases a; cases b; simp_all

/-- Scanning from a state that has already found a positive extent computes
the minimum of that state's extent and the remaining positive extents. -/
theorem scan_true (l : List Scalar) : ∀ v : Scalar,
    l.foldl scanStep (v, true) =
      ((l.filter (fun e => decide (0 < e))).foldl min v, true) := by
  induction l with
  | nil => intro v; rfl
  | cons e l ih =>
    intro v
    by_cases he : 0 < e
    · by_cases hlt : e < v
      · simpa [List.foldl_cons, List.filter_cons, he, scanStep, hlt,
          min_eq_right hlt.le] using ih e
      · simpa [List.foldl_cons, List.filter_cons, he, scanStep, hlt,
          min_eq_left (not_lt.mp hlt)] using ih v
    · simpa [List.foldl_cons, List.filter_cons, he, scanStep] using ih v

/-- The scanning loop started from its initial state computes exactly the
minimum strictly-positive extent, with the found flag recording whether any
strictly positive extent exists. -/
theorem scan_false (l : List Scalar) (v : Scalar) :
    l.foldl scanStep (v, false) =
      match l.filter (fun e => decide (0 < e)) with
      | [] => (v, false)
      | p :: rest => (rest.foldl min p, true) := by
  induction l with
  | nil => rfl
  | cons e l ih =>
    by_cases he : 0 < e
    · have h1 : scanStep (v, false) e = (e, true) := by simp [scanStep, he]
      rw [List.foldl_cons, h1, scan_true l e]
      simp [List.filter_cons, he]
    · have h1 : scanStep (v, false) e = (v, false) := by simp [scanStep, he]
      rw [List.foldl_cons, h1, ih]
      simp [List.filter_cons, he]

/-- A fold of `min` over positive values, started at a positive value, is
positive. -/
theorem foldl_min_pos (l : List Scalar) : ∀ p : Scalar, 0 < p →
    (∀ e ∈ l, 0 < e) → 0 < l.foldl min p := by
  induction l with
  | nil => intro p hp _; simpa using hp
  | cons e l ih =>
    intro p hp h
    rw [List.foldl_cons]
    exact ih (min p e) (lt_min hp (h e (List.mem_cons_self e l)))
      (fun x hx => h x (List.mem_cons_of_mem e hx))

/-- The minimum strictly-positive extent, when it exists, is positive. -/
theorem minPositiveExtent_pos {l : List Scalar} {m : Scalar}
    (h : minPositiveExtent l = some m) : 0 < m := by
  unfold minPositiveExtent at h
  cases hf : l.filter (fun e => decide (0 < e)) with
  | nil => rw [hf] at h; exact absurd h (by simp)
  | cons p rest =>
    rw [hf] at h
    have hmem : ∀ x ∈ p :: rest, 0 < x := by
      intro x hx
      have hx2 : x ∈ l.filter (fun e => decide (0 < e)) := hf ▸ hx
      exact of_decide_eq_true (List.mem_filter.mp hx2).2
    have hpos : 0 < rest.foldl min p :=
      foldl_min_pos rest p (hmem p (List.mem_cons_self p rest))
        (fun x hx => hmem x (List.mem_cons_of_mem p hx))
    exact Option.some.inj h ▸ hpos

/-- When some extent is strictly positive, the minimum strictly-positive
extent exists. -/
theorem minPositiveExtent_isSome {l : List Scalar}
    (h : ∃ e ∈ l, 0 < e) : ∃ m, minPositiveExtent l = some m := by
  obtain ⟨e, hel, hpos⟩ := h
  have hmem : e ∈ l.filter (fun e => decide (0 < e)) :=
    List.mem_filter.mpr ⟨hel, decide_eq_true hpos⟩
  unfold minPositiveExtent
  cases hf : l.filter (fun e => decide (0 < e)) with
  | nil => rw [hf] at hmem; exact absurd hmem (List.not_mem_nil e)
  | cons p rest => exact ⟨rest.foldl min p, rfl⟩

/-- With no user tolerance, `compute_tolerance` is determined by the minimum
strictly-positive extent of the bounding box. -/
theorem compute_tolerance_none_eq (aabb : Aabb) :
    compute_tolerance aabb none =
      match minPositiveExtent aabb.size.components with
      | none => Except.error Error.emptyModel
      | some m =>
        match Tolerance.from_scalar (m / Scalar.from_f64 1000) with
        | Except.ok t => Except.ok t
        | Except.error e => Except.error (Error.tolerance e) := by
  show (let st := aabb.size.components.foldl scanStep (0, false)
        if st.2 = false then Except.error Error.emptyModel
        else
          let tolerance := st.1 / Scalar.from_f64 1000
          match Tolerance.from_scalar tolerance with
          | Except.ok t => Except.ok t
          | Except.error e => Except.error (Error.tolerance e)) = _
  rw [scan_false]
  unfold minPositiveExtent
  cases aabb.size.components.filter (fun e => decide (0 < e)) with
  | nil => rfl
  | cons p rest => rfl

/-- With no user tolerance and a minimum strictly-positive extent `m`,
`compute_tolerance` succeeds with value `m / 1000`. -/
theorem compute_tolerance_none_of_some {aabb : Aabb} {m : Scalar}
    (h : minPositiveExtent aabb.size.components = some m) :
    ∃ t : Tolerance, compute_tolerance aabb none = Except.ok t ∧
      t.value = m / 1000 := by
  have hm := minPositiveExtent_pos h
  have hpos : 0 < m / Scalar.from_f64 1000 := by
    unfold Scalar.from_f64; positivity
  rw [compute_tolerance_none_eq, h]
  simp only [Tolerance.from_scalar, dif_pos hpos]
  exact ⟨⟨m / Scalar.from_f64 1000, hpos⟩, rfl, rfl⟩

/-- With no user tolerance and no strictly positive extent,
`compute_tolerance` fails with `EmptyModel`. -/
theorem compute_tolerance_emptyModel_of_nonpos {aabb : Aabb}
    (h : ∀ e ∈ aabb.size.components, e ≤ 0) :
    compute_tolerance aabb none = Except.error Error.emptyModel := by
  have hf : aabb.size.components.filter (fun e => decide (0 < e)) = [] := by
    rw [List.filter_eq_nil_iff]
    intro a ha
    simpa using not_lt.mpr (h a ha)
  rw [compute_tolerance_none_eq]
  unfold minPositiveExtent
  rw [hf]

/-- The tolerance-derivation path never produces a validation error. -/
theorem compute_tolerance_ne_validation (aabb : Aabb)
    (ud : Option Tolerance) (ve : ValidationErrors) :
    compute_tolerance aabb ud ≠ Except.error (Error.validation ve) := by
  cases ud with
  | some tol => simp [compute_tolerance]
  | none =>
    rw [compute_tolerance_none_eq]
    cases minPositiveExtent aabb.size.components with
    | none => simp
    | some m =>
      cases hts : Tolerance.from_scalar (m / Scalar.from_f64 1000) with
      | ok t => simp [hts]
      | error e => simp [hts]

/-- The components of the witness box with extents (0, 2, 4). -/
theorem components_024 :
    (Aabb.size ⟨Point3.origin, ⟨0, 2, 4⟩⟩).components = [0, 2, 4] := by
  show [(0 : Scalar) - 0, (2 : Scalar) - 0, (4 : Scalar) - 0] = [0, 2, 4]
  norm_num

/-- The witness box with extents (0, 2, 4) has a strictly positive extent. -/
theorem exists_pos_024 :
    ∃ e ∈ (Aabb.size ⟨Point3.origin, ⟨0, 2, 4⟩⟩).components, 0 < e := by
  rw [components_024]
  exact ⟨2, by simp, by norm_num⟩

/-- The minimum strictly-positive extent of the witness box is 2. -/
theorem minPos_024 :
    minPositiveExtent (Aabb.size ⟨Point3.origin, ⟨0, 2, 4⟩⟩).components =
      some 2 := by
  rw [components_024]
  have hfil : List.filter (fun e => decide (0 < e)) ([0, 2, 4] : List Scalar)
      = [2, 4] := by
    rw [List.filter_cons, List.filter_cons, List.filter_cons, List.filter_nil]
    simp only [decide_eq_true_eq]
    rw [if_neg (by norm_num), if_pos (by norm_num), if_pos (by norm_num)]
  unfold minPositiveExtent
  rw [hfil]
  show some (min 2 4) = some 2
  rw [min_eq_left (by norm_num : (2 : Scalar) ≤ 4)]

/-- C1: for every AABB with at least one strictly positive axis extent and
no user-supplied tolerance, `compute_tolerance` succeeds and returns exactly
the minimum strictly-positive extent divided by 1000 (zero extents are
skipped, never chosen as the minimum), and the returned tolerance value is
strictly positive. -/
theorem compute_tolerance_min_positive (aabb : Aabb)
    (h : ∃ e ∈ aabb.size.components, 0 < e) :
    ∃ m t, minPositiveExtent aabb.size.components = some m ∧
      compute_tolerance aabb none = Except.ok t ∧
      t.value = m / 1000 ∧ 0 < t.value := by
  obtain ⟨m, hm⟩ := minPositiveExtent_isSome h
  obtain ⟨t, ht, hv⟩ := compute_tolerance_none_of_some hm
  exact ⟨m, t, hm, ht, hv, t.value_pos⟩

/-- Witness for C1: for extents (0, 2, 4) the derived tolerance is 0.002. -/
theorem compute_tolerance_min_positive_witness :
    ∃ t : Tolerance,
      compute_tolerance ⟨Point3.origin, ⟨0, 2, 4⟩⟩ none = Except.ok t ∧
      t.value = (0.002 : Scalar) ∧ 0 < t.value := by
  obtain ⟨m, t, hm, hct, hv, hpos⟩ :=
    compute_tolerance_min_positive ⟨Point3.origin, ⟨0, 2, 4⟩⟩ exists_pos_024
  have hm2 : m = 2 := Option.some.inj (hm.symm.trans minPos_024)
  refine ⟨t, hct, ?_, hpos⟩
  rw [hv, hm2]
  norm_num

/-- C2: for every AABB (including degenerate ones) and every user-supplied
tolerance, `compute_tolerance` returns the user tolerance unchanged; the
AABB-based derivation is never performed. -/
theorem compute_tolerance_user_override (aabb : Aabb) (t : Tolerance) :
    compute_tolerance aabb (some t) = Except.ok t := rfl

/-- C9: in the derived-tolerance path (no user tolerance, at least one
strictly positive extent) the value passed to the fallible `Tolerance`
constructor is strictly positive, so the constructor's `InvalidTolerance`
error branch at that call site is unreachable under exact arithmetic. -/
theorem derived_tolerance_positive (aabb : Aabb)
    (h : ∃ e ∈ aabb.size.components, 0 < e) :
    0 < (aabb.size.components.foldl scanStep (0, false)).1 /
        Scalar.from_f64 1000 ∧
      ∀ e, compute_tolerance aabb none ≠ Except.error (Error.tolerance e) := by
  obtain ⟨m, hm⟩ := minPositiveExtent_isSome h
  have hmpos := minPositiveExtent_pos hm
  have hscan : aabb.size.components.foldl scanStep (0, false) = (m, true) := by
    rw [scan_false]
    unfold minPositiveExtent at hm
    cases hf : aabb.size.components.filter (fun e => decide (0 < e)) with
    | nil => rw [hf] at hm; simp at hm
    | cons p rest =>
      rw [hf] at hm
      have hm2 : rest.foldl min p = m := Option.some.inj hm
      show (rest.foldl min p, true) = (m, true)
      rw [hm2]
  constructor
  · rw [hscan]
    unfold Scalar.from_f64
    positivity
  · intro e
    obtain ⟨t, ht, _⟩ := compute_tolerance_none_of_some hm
    rw [ht]
    simp

/-- Witness for C9: at extents (0, 2, 4) the value passed to the
constructor is positive and no `InvalidTolerance` error is produced. -/
theorem derived_tolerance_positive_witness :
    0 < ((Aabb.size ⟨Point3.origin, ⟨0, 2, 4⟩⟩).components.foldl scanStep
        (0, false)).1 / Scalar.from_f64 1000 ∧
      compute_tolerance ⟨Point3.origin, ⟨0, 2, 4⟩⟩ none ≠
        Except.error (Error.tolerance ⟨2 / 1000⟩) :=
  ⟨(derived_tolerance_positive ⟨Point3.origin, ⟨0, 2, 4⟩⟩ exists_pos_024).1,
   (derived_tolerance_positive ⟨Point3.origin, ⟨0, 2, 4⟩⟩ exists_pos_024).2
     ⟨2 / 1000⟩⟩

/-- The components of the witness box with extents (-1, 0, -3). -/
theorem components_neg :
    (Aabb.size ⟨⟨0, 0, 0⟩, ⟨-1, 0, -3⟩⟩).components = [-1, 0, -3] := by
  show [(-1 : Scalar) - 0, (0 : Scalar) - 0, (-3 : Scalar) - 0] = [-1, 0, -3]
  norm_num

/-- Every extent of the witness box with extents (-1, 0, -3) is
non-positive. -/
theorem nonpos_neg :
    ∀ e ∈ (Aabb.size ⟨⟨0, 0, 0⟩, ⟨-1, 0, -3⟩⟩).components, e ≤ 0 := by
  rw [components_neg]
  intro e he
  simp only [List.mem_cons, List.not_mem_nil, or_false] at he
  rcases he with rfl | rfl | rfl <;> norm_num

/-- The positive-extent filters of the boxes with extents (2, -5, 0) and
(2, 0, 0) agree. -/
theorem filter_pair :
    (Aabb.size ⟨⟨0, 5, 0⟩, ⟨2, 0, 0⟩⟩).components.filter
        (fun e => decide (0 < e)) =
      (Aabb.size ⟨⟨0, 0, 0⟩, ⟨2, 0, 0⟩⟩).components.filter
        (fun e => decide (0 < e)) := by
  have h1 : (Aabb.size ⟨⟨0, 5, 0⟩, ⟨2, 0, 0⟩⟩).components = [2, -5, 0] := by
    show [(2 : Scalar) - 0, (0 : Scalar) - 5, (0 : Scalar) - 0] = [2, -5, 0]
    norm_num
  have h2 : (Aabb.size ⟨⟨0, 0, 0⟩, ⟨2, 0, 0⟩⟩).components = [2, 0, 0] := by
    show [(2 : Scalar) - 0, (0 : Scalar) - 0, (0 : Scalar) - 0] = [2, 0, 0]
    norm_num
  rw [h1, h2]
  rw [List.filter_cons, List.filter_cons, List.filter_cons, List.filter_nil,
    List.filter_cons, List.filter_cons, List.filter_cons, List.filter_nil]
  simp only [decide_eq_true_eq]
  norm_num

/-- C10: `compute_tolerance` treats strictly negative extents exactly like
zero extents: for every AABB whose three extents are all non-positive
(including malformed boxes with max below min) and no user tolerance it
fails with `EmptyModel`, and in general the result depends only on the
strictly positive extents, so negative extents never influence the derived
tolerance. -/
theorem negative_extents_like_zero :
    (∀ aabb : Aabb, (∀ e ∈ aabb.size.components, e ≤ 0) →
        compute_tolerance aabb none = Except.error Error.emptyModel) ∧
    (∀ a b : Aabb,
        a.size.components.filter (fun e => decide (0 < e)) =
          b.size.components.filter (fun e => decide (0 < e)) →
        compute_tolerance a none = compute_tolerance b none) := by
  constructor
  · intro aabb h
    exact compute_tolerance_emptyModel_of_nonpos h
  · intro a b hfil
    rw [compute_tolerance_none_eq, compute_tolerance_none_eq]
    unfold minPositiveExtent
    rw [hfil]

/-- Witness for C10: a malformed box with extents (-1, 0, -3) fails with
`EmptyModel`, and a negative extent does not influence the result. -/
theorem negative_extents_like_zero_witness :
    compute_tolerance ⟨⟨0, 0, 0⟩, ⟨-1, 0, -3⟩⟩ none =
      Except.error Error.emptyModel ∧
    compute_tolerance ⟨⟨0, 5, 0⟩, ⟨2, 0, 0⟩⟩ none =
      compute_tolerance ⟨⟨0, 0, 0⟩, ⟨2, 0, 0⟩⟩ none :=
  ⟨negative_extents_like_zero.1 ⟨⟨0, 0, 0⟩, ⟨-1, 0, -3⟩⟩ nonpos_neg,
   negative_extents_like_zero.2 ⟨⟨0, 5, 0⟩, ⟨2, 0, 0⟩⟩ ⟨⟨0, 0, 0⟩, ⟨2, 0, 0⟩⟩
     filter_pair⟩

/-- Counterexample for C5: an initialization failure whose cause is not
"already initialized" is also discarded by `init_logger`, which returns
success instead of propagating a logger-setup error. -/
theorem init_logger_counterexample :
    init_logger (Except.error (TryInitError.other "subscriber setup failed")) =
      Except.ok () := rfl

/-- C5 (amended): logger initialization in the pipeline always returns
success: the underlying `try_init` outcome is discarded, so a second
invocation in a process (already initialized) is never a fatal error, and an
initialization failure for any other reason is likewise discarded, never
propagated. -/
theorem init_logger_always_ok (r : Except TryInitError Unit) :
    init_logger r = Except.ok () := rfl

/-- C6: `parse_tolerance` fails with `ArgsError::ParseTolerance` carrying
the numeric-parse cause exactly when the string does not parse, before the
positivity check is reached; a parsed non-positive value fails with
`ArgsError::InvalidTolerance`; and a parsed positive value succeeds with a
`Tolerance` equal to the parsed value. -/
theorem parse_tolerance_stages
    (from_str : String → Except ParseFloatError Scalar) (input : String) :
    (∀ e, from_str input = Except.error e →
        parse_tolerance from_str input =
          Except.error (ArgsError.ParseTolerance e)) ∧
    (∀ v, from_str input = Except.ok v → v ≤ 0 →
        parse_tolerance from_str input =
          Except.error (ArgsError.InvalidTolerance ⟨v⟩)) ∧
    (∀ v, from_str input = Except.ok v → ∀ hv : 0 < v,
        parse_tolerance from_str input = Except.ok ⟨v, hv⟩) := by
  refine ⟨fun e he => ?_, fun v hv hle => ?_, fun v hv hpos => ?_⟩
  · simp [parse_tolerance, he]
  · simp [parse_tolerance, hv, Scalar.from_f64, Tolerance.from_scalar,
      not_lt.mpr hle]
  · simp [parse_tolerance, hv, Scalar.from_f64, Tolerance.from_scalar, hpos]

/-- Witness for C6: with the concrete parser `fsW`, the string "abc" fails
at the parse stage, "-1" fails the positivity invariant, and "0.01" yields
the tolerance 0.01. -/
theorem parse_tolerance_stages_witness :
    parse_tolerance fsW "abc" =
      Except.error (ArgsError.ParseTolerance ⟨"invalid float literal"⟩) ∧
    parse_tolerance fsW "-1" =
      Except.error (ArgsError.InvalidTolerance ⟨-1⟩) ∧
    parse_tolerance fsW "0.01" = Except.ok ⟨1 / 100, by norm_num⟩ :=
  ⟨(parse_tolerance_stages fsW "abc").1 ⟨"invalid float literal"⟩ rfl,
   (parse_tolerance_stages fsW "-1").2.1 (-1) rfl (by norm_num),
   (parse_tolerance_stages fsW "0.01").2.2 (1 / 100) rfl (by norm_num)⟩

/-- The printing loop renders exactly the chain's messages, numbered from
the given start index. -/
theorem debugChain_eq_renderCauses (c : DynError) :
    ∀ i : Nat, debugChain c i = renderCauses c.messages i := by
  induction c with
  | leaf m =>
    intro i
    simp [debugChain, DynError.messages, renderCauses, String.append_empty]
  | node m c ih =>
    intro i
    simp only [debugChain, DynError.messages, renderCauses, ih]

/-- A cause chain always has at least one message. -/
theorem messages_ne_nil (c : DynError) : c.messages ≠ [] := by
  cases c <;> simp [DynError.messages]

/-- C8: the error reporter prints the error's own message first, and
exactly when the error has at least one underlying cause it prints a
"Caused by:" header followed by each cause in cause-of-cause order, one per
line, numbered consecutively from 0. -/
theorem error_debug_renders_cause_chain (e : Error) :
    e.debugFmt = e.displayStr ++
      (if e.causes = [] then ""
       else "\n\nCaused by:" ++ renderCauses e.causes 0) := by
  cases e with
  | tracing d =>
    simp only [Error.debugFmt, Error.source, Error.causes, Error.displayStr]
    rw [if_neg (messages_ne_nil d), debugChain_eq_renderCauses d 0]
  | display d =>
    simp only [Error.debugFmt, Error.source, Error.causes, Error.displayStr]
    rw [if_neg (messages_ne_nil d), debugChain_eq_renderCauses d 0]
  | exportError d =>
    simp only [Error.debugFmt, Error.source, Error.causes, Error.displayStr]
    rw [if_neg (messages_ne_nil d), debugChain_eq_renderCauses d 0]
  | tolerance i =>
    simp [Error.debugFmt, Error.source, Error.causes, Error.displayStr,
      InvalidTolerance.source]
  | validation v =>
    simp [Error.debugFmt, Error.source, Error.causes, Error.displayStr,
      ValidationErrors.source]
  | emptyModel =>
    simp [Error.debugFmt, Error.source, Error.causes, Error.displayStr]

/-- Every component of the degenerate origin box is zero. -/
theorem degenerate_zero :
    ∀ e ∈ (Aabb.size ⟨Point3.origin, Point3.origin⟩).components, e = 0 := by
  have hc : (Aabb.size ⟨Point3.origin, Point3.origin⟩).components
      = [0, 0, 0] := by
    show [(0 : Scalar) - 0, (0 : Scalar) - 0, (0 : Scalar) - 0] = [0, 0, 0]
    norm_num
  rw [hc]
  intro e he
  simp only [List.mem_cons, List.not_mem_nil, or_false] at he
  rcases he with rfl | rfl | rfl <;> norm_num

/-- C3: with no user tolerance, an AABB whose three extents are all zero
makes `compute_tolerance` fail with `EmptyModel`; and when the
bounding-volume query returns no AABB, the pipeline substitutes the
degenerate origin box, so a run with no explicit tolerance (and a passing
validation gate) fails with `EmptyModel`. -/
theorem empty_model_paths :
    (∀ aabb : Aabb, (∀ e ∈ aabb.size.components, e = 0) →
        compute_tolerance aabb none = Except.error Error.emptyModel) ∧
    (∀ (M T : Type) (C : Collaborators M T) (verrs : List ValidationError)
        (model : M) (args : Args),
        C.aabb model = none → args.tolerance = none →
        (args.ignore_validation = true ∨ verrs = []) →
        (process_model_with_args C verrs model args).1 =
          Except.error Error.emptyModel) := by
  constructor
  · intro aabb h
    exact compute_tolerance_emptyModel_of_nonpos
      (fun e he => le_of_eq (h e he))
  · intro M T C verrs model args hA hT hV
    rcases args with ⟨ep, tolArg, iv⟩
    have hT2 : tolArg = none := hT
    subst hT2
    have hdeg : compute_tolerance
        ((C.aabb model).getD ⟨Point3.origin, Point3.origin⟩) none =
        Except.error Error.emptyModel := by
      rw [hA]
      exact compute_tolerance_emptyModel_of_nonpos
        (fun e he => le_of_eq (degenerate_zero e he))
    cases iv with
    | true => simp [process_model_with_args, init_logger, hdeg]
    | false =>
      rcases hV with h | h
      · exact absurd h (by simp)
      · subst h
        simp [process_model_with_args, init_logger, take_errors, hdeg]

/-- Witness for C3: the degenerate origin box fails with `EmptyModel`, and
a pipeline run on a model with no bounding volume and no explicit tolerance
fails with `EmptyModel`. -/
theorem empty_model_paths_witness :
    compute_tolerance ⟨Point3.origin, Point3.origin⟩ none =
      Except.error Error.emptyModel ∧
    (process_model_with_args collabW [] () ⟨none, none, false⟩).1 =
      Except.error Error.emptyModel :=
  ⟨empty_model_paths.1 ⟨Point3.origin, Point3.origin⟩ degenerate_zero,
   empty_model_paths.2 Unit Unit collabW [] () ⟨none, none, false⟩ rfl rfl
     (Or.inr rfl)⟩

/-- C4: unless `ignore_validation` is set, the accumulated validation
errors are drained and, if any exist, the run fails with the
validation-errors cause before any geometry work (bounding-volume query,
tolerance derivation, triangulation, export or display) is performed; when
`ignore_validation` is set the run never fails with a validation error. -/
theorem validation_gate :
    (∀ (M T : Type) (C : Collaborators M T) (verrs : List ValidationError)
        (model : M) (args : Args),
        args.ignore_validation = false → verrs ≠ [] →
        process_model_with_args C verrs model args =
          (Except.error (Error.validation ⟨verrs⟩),
           [Event.initLogger, Event.takeValidationErrors])) ∧
    (∀ (M T : Type) (C : Collaborators M T) (verrs : List ValidationError)
        (model : M) (args : Args) (ve : ValidationErrors),
        args.ignore_validation = true →
        (process_model_with_args C verrs model args).1 ≠
          Except.error (Error.validation ve)) := by
  constructor
  · intro M T C verrs model args hiv hne
    rcases args with ⟨ep, tolArg, iv⟩
    have hiv2 : iv = false := hiv
    subst hiv2
    cases verrs with
    | nil => exact absurd rfl hne
    | cons v vs =>
      simp [process_model_with_args, init_logger, take_errors]
  · intro M T C verrs model args ve hiv
    rcases args with ⟨ep, tolArg, iv⟩
    have hiv2 : iv = true := hiv
    subst hiv2
    cases hct : compute_tolerance
        ((C.aabb model).getD ⟨Point3.origin, Point3.origin⟩) tolArg with
    | error e =>
      have hres : (process_model_with_args C verrs model
          ⟨ep, tolArg, true⟩).1 = Except.error e := by
        simp [process_model_with_args, init_logger, hct]
      rw [hres]
      intro h
      have he : e = Error.validation ve := by injection h
      exact compute_tolerance_ne_validation
        ((C.aabb model).getD ⟨Point3.origin, Point3.origin⟩) tolArg ve
        (by rw [hct, he])
    | ok tol =>
      cases ep with
      | some path =>
        cases hex : C.exportFn (C.triangulate model tol) path with
        | ok u => simp [process_model_with_args, init_logger, hct, hex]
        | error ex => simp [process_model_with_args, init_logger, hct, hex]
      | none =>
        cases hd : C.displayFn (C.triangulate model tol) with
        | ok u => simp [process_model_with_args, init_logger, hct, hd]
        | error dx => simp [process_model_with_args, init_logger, hct, hd]

/-- Witness for C4: with one accumulated validation error and the gate
active, the run fails with that validation error having performed no
geometry work; with `ignore_validation` set it does not fail with a
validation error. -/
theorem validation_gate_witness :
    process_model_with_args collabW [⟨"zero-length edge"⟩] ()
        ⟨none, some tW, false⟩ =
      (Except.error (Error.validation ⟨[⟨"zero-length edge"⟩]⟩),
       [Event.initLogger, Event.takeValidationErrors]) ∧
    (process_model_with_args collabW [⟨"zero-length edge"⟩] ()
        ⟨none, some tW, true⟩).1 ≠
      Except.error (Error.validation ⟨[⟨"zero-length edge"⟩]⟩) :=
  ⟨validation_gate.1 Unit Unit collabW [⟨"zero-length edge"⟩] ()
      ⟨none, some tW, false⟩ rfl (by simp),
   validation_gate.2 Unit Unit collabW [⟨"zero-length edge"⟩] ()
      ⟨none, some tW, true⟩ ⟨[⟨"zero-length edge"⟩]⟩ rfl⟩

/-- C7: when `export_path` is set the mesh and path are handed to the
exporter and its result is returned, and the viewer is never invoked in
that branch; when `export_path` is not set the mesh is handed to the
interactive viewer instead. -/
theorem export_display_branch :
    (∀ (M T : Type) (C : Collaborators M T) (verrs : List ValidationError)
        (model : M) (args : Args) (path : String),
        args.exportPath = some path →
        Event.displayCall ∉ (process_model_with_args C verrs model args).2) ∧
    (∀ (M T : Type) (C : Collaborators M T) (verrs : List ValidationError)
        (model : M) (args : Args) (path : String) (tol : Tolerance),
        args.exportPath = some path →
        (args.ignore_validation = true ∨ verrs = []) →
        compute_tolerance ((C.aabb model).getD ⟨Point3.origin, Point3.origin⟩)
            args.tolerance = Except.ok tol →
        (process_model_with_args C verrs model args).1 =
          (C.exportFn (C.triangulate model tol) path).mapError
            Error.exportError ∧
        Event.exportCall path ∈
          (process_model_with_args C verrs model args).2) ∧
    (∀ (M T : Type) (C : Collaborators M T) (verrs : List ValidationError)
        (model : M) (args : Args) (tol : Tolerance),
        args.exportPath = none →
        (args.ignore_validation = true ∨ verrs = []) →
        compute_tolerance ((C.aabb model).getD ⟨Point3.origin, Point3.origin⟩)
            args.tolerance = Except.ok tol →
        (process_model_with_args C verrs model args).1 =
          (C.displayFn (C.triangulate model tol)).mapError Error.display ∧
        Event.displayCall ∈ (process_model_with_args C verrs model args).2 ∧
        ∀ p, Event.exportCall p ∉
          (process_model_with_args C verrs model args).2) := by
  refine ⟨?_, ?_, ?_⟩
  · intro M T C verrs model args path hep
    rcases args with ⟨ep, tolArg, iv⟩
    have hep2 : ep = some path := hep
    subst hep2
    cases iv with
    | true =>
      cases hct : compute_tolerance
          ((C.aabb model).getD ⟨Point3.origin, Point3.origin⟩) tolArg with
      | error e => simp [process_model_with_args, init_logger, hct]
      | ok tol =>
        cases hex : C.exportFn (C.triangulate model tol) path with
        | ok u => simp [process_model_with_args, init_logger, hct, hex]
        | error ex => simp [process_model_with_args, init_logger, hct, hex]
    | false =>
      cases verrs with
      | cons v vs => simp [process_model_with_args, init_logger, take_errors]
      | nil =>
        cases hct : compute_tolerance
            ((C.aabb model).getD ⟨Point3.origin, Point3.origin⟩) tolArg with
        | error e =>
          simp [process_model_with_args, init_logger, take_errors, hct]
        | ok tol =>
          cases hex : C.exportFn (C.triangulate model tol) path with
          | ok u =>
            simp [process_model_with_args, init_logger, take_errors, hct, hex]
          | error ex =>
            simp [process_model_with_args, init_logger, take_errors, hct, hex]
  · intro M T C verrs model args path tol hep hV hct
    rcases args with ⟨ep, tolArg, iv⟩
    have hep2 : ep = some path := hep
    subst hep2
    have hct2 : compute_tolerance
        ((C.aabb model).getD ⟨Point3.origin, Point3.origin⟩) tolArg =
        Except.ok tol := hct
    cases iv with
    | true =>
      cases hex : C.exportFn (C.triangulate model tol) path with
      | ok u =>
        simp [process_model_with_args, init_logger, hct2, hex,
          Except.mapError]
      | error ex =>
        simp [process_model_with_args, init_logger, hct2, hex,
          Except.mapError]
    | false =>
      rcases hV with h | h
      · exact absurd h (by simp)
      · subst h
        cases hex : C.exportFn (C.triangulate model tol) path with
        | ok u =>
          simp [process_model_with_args, init_logger, take_errors, hct2, hex,
            Except.mapError]
        | error ex =>
          simp [process_model_with_args, init_logger, take_errors, hct2, hex,
            Except.mapError]
  · intro M T C verrs model args tol hep hV hct
    rcases args with ⟨ep, tolArg, iv⟩
    have hep2 : ep = none := hep
    subst hep2
    have hct2 : compute_tolerance
        ((C.aabb model).getD ⟨Point3.origin, Point3.origin⟩) tolArg =
        Except.ok tol := hct
    cases iv with
    | true =>
      cases hd : C.displayFn (C.triangulate model tol) with
      | ok u =>
        simp [process_model_with_args, init_logger, hct2, hd,
          Except.mapError]
      | error dx =>
        simp [process_model_with_args, init_logger, hct2, hd,
          Except.mapError]
    | false =>
      rcases hV with h | h
      · exact absurd h (by simp)
      · subst h
        cases hd : C.displayFn (C.triangulate model tol) with
        | ok u =>
          simp [process_model_with_args, init_logger, take_errors, hct2, hd,
            Except.mapError]
        | error dx =>
          simp [process_model_with_args, init_logger, take_errors, hct2, hd,
            Except.mapError]

/-- Witness for C7: with a user tolerance and an export path the run
returns the exporter's result and records an export call but no display
call; with no export path it records a display call. -/
theorem export_display_branch_witness :
    (process_model_with_args collabW [] () ⟨some "out.step", some tW,
        false⟩).1 =
      (collabW.exportFn (collabW.triangulate () tW) "out.step").mapError
        Error.exportError ∧
    Event.exportCall "out.step" ∈
      (process_model_with_args collabW [] ()
        ⟨some "out.step", some tW, false⟩).2 ∧
    Event.displayCall ∉
      (process_model_with_args collabW [] ()
        ⟨some "out.step", some tW, false⟩).2 ∧
    Event.displayCall ∈
      (process_model_with_args collabW [] () ⟨none, some tW, false⟩).2 :=
  ⟨(export_display_branch.2.1 Unit Unit collabW [] ()
      ⟨some "out.step", some tW, false⟩ "out.step" tW rfl (Or.inr rfl)
      rfl).1,
   (export_display_branch.2.1 Unit Unit collabW [] ()
      ⟨some "out.step", some tW, false⟩ "out.step" tW rfl (Or.inr rfl)
      rfl).2,
   export_display_branch.1 Unit Unit collabW [] ()
      ⟨some "out.step", some tW, false⟩ "out.step" rfl,
   (export_display_branch.2.2 Unit Unit collabW [] ()
      ⟨none, some tW, false⟩ tW rfl (Or.inr rfl) rfl).2.1⟩
